import Mathlib

/-!
Verification of the tapmap crawler core (src/backend/crawler) against its
natural-language specification.

The Python source is shallowly embedded: pure helpers become Lean functions
over `String` / `List Char`; the browser, the HTTP client and the robots
parser are abstracted as explicit "world" parameters (a function from URL to
a navigation outcome, a fetch outcome, a parsed-rules oracle), and the crawl
loop becomes a fuel-indexed recursion over an explicit state record.
-/

namespace Tapmap

/-! ## String helpers (Python semantics on `List Char`) -/

/-- Whether `pre` is a prefix of `cs` (Python `str.startswith`). -/
def listStartsWith (cs pre : List Char) : Bool :=
  match pre, cs with
  | [], _ => true
  | _ :: _, [] => false
  | a :: pre', b :: cs' => a == b && listStartsWith cs' pre'

/-- Whether `suf` is a suffix of `cs` (Python `str.endswith`). -/
def listEndsWith (cs suf : List Char) : Bool :=
  listStartsWith cs.reverse suf.reverse

/-- Whether `needle` occurs as a contiguous sublist of `hay`
(Python `needle in hay` on strings). -/
def listHasSub (hay needle : List Char) : Bool :=
  match hay with
  | [] => needle.isEmpty
  | _ :: t => listStartsWith hay needle || listHasSub t needle

/-- Python `str.lower()` (ASCII case folding, which covers every string the
source compares). -/
def pyLower (s : String) : String :=
  String.mk (s.toList.map Char.toLower)

/-- Python `str.strip()`: drop whitespace from both ends. -/
def pyStrip (s : String) : String :=
  String.mk (((s.toList.dropWhile Char.isWhitespace).reverse.dropWhile
    Char.isWhitespace).reverse)

/-- Python truthiness of an optional string: `None` and `""` are falsy. -/
def optTruthy : Option String → Bool
  | none => false
  | some s => !(s == "")

/-- Python truthiness test `not keywords` for an optional list:
true for `None` and for `[]`. -/
def keywordsFalsy : Option (List String) → Bool
  | none => true
  | some ks => ks.isEmpty

/-- Substring test on strings. -/
def strHasSub (hay needle : String) : Bool :=
  listHasSub hay.toList needle.toList

/-! ## Context Classifier (src/backend/crawler/extractor.py) -/

/-- `PHARMA_PATTERNS` (extractor.py lines 14-54): the five built-in
category → phrase tables, as an ordered association list (dict insertion
order in the source). -/
def PHARMA_PATTERNS : List (String × List String) :=
  [ ("isi",
      [ "important safety information",
        "full prescribing information",
        "medication guide",
        "prescribing information",
        "safety information" ]),
    ("adverse_event",
      [ "report side effects",
        "adverse event",
        "medwatch",
        "report adverse",
        "side effect" ]),
    ("patient_enrollment",
      [ "patient support",
        "copay",
        "savings card",
        "savings program",
        "co-pay",
        "patient assistance",
        "enroll",
        "sign up for savings" ]),
    ("hcp_gate",
      [ "are you a healthcare professional",
        "for us healthcare professionals",
        "healthcare provider",
        "hcp portal",
        "for healthcare professionals",
        "i am a healthcare" ]),
    ("fair_balance",
      [ "indications and usage",
        "contraindications",
        "warnings and precautions",
        "boxed warning",
        "black box warning" ]) ]

/-- `_detect_pharma_builtin` (extractor.py lines 57-73): first category whose
phrase list has a substring match in the lower-cased text wins; the bare
category name is returned.  If no text match, the URL is probed for
ISI-related markers. -/
def detect_pharma_builtin (text url : Option String) : Option String :=
  if !(optTruthy text) then none
  else
    let text_lower := pyLower (text.getD "")
    match PHARMA_PATTERNS.findSome? (fun cp =>
        if (cp.2.find? (fun pat => strHasSub text_lower pat)).isSome
        then some cp.1 else none) with
    | some category => some category
    | none =>
      if optTruthy url then
        let url_lower := pyLower (url.getD "")
        if strHasSub url_lower "prescribing" || strHasSub url_lower "/pi" then
          some "isi"
        else if strHasSub url_lower "medguide" ||
            strHasSub url_lower "medication-guide" then
          some "isi"
        else none
      else none

/-- `detect_tag_context` (extractor.py lines 76-105).  Built-in mode when
`tag_name = "Pharma"` and no keywords; custom mode concatenates the
lower-cased text and URL (space-joined) and returns the first keyword with a
case-insensitive substring match.  The Python call sites use defaults
`url=None`, `tag_name="Pharma"`, `keywords=None`; here all arguments are
passed explicitly. -/
def detect_tag_context (text url : Option String) (tag_name : String)
    (keywords : Option (List String)) : Option String :=
  if tag_name == "Pharma" && keywordsFalsy keywords then
    detect_pharma_builtin text url
  else if keywordsFalsy keywords then
    none
  else
    let combined :=
      (if optTruthy text then pyLower (text.getD "") else "")
        ++ (if optTruthy url then " " ++ pyLower (url.getD "") else "")
    if pyStrip combined == "" then none
    else (keywords.getD []).find? (fun k => strHasSub combined (pyLower k))

/-! ## Data model (src/backend/crawler/models.py) -/

/-- `ScanConfig` (models.py lines 5-26): the configuration a crawl receives.
Its only fields are `url`, `max_pages`, `max_depth`, `rate_limit` — the
model declares no tag fields. -/
structure ScanConfig where
  url : String
  max_pages : Nat
  max_depth : Nat
  rate_limit : Rat
deriving DecidableEq, Repr

/-- The pydantic field validators of `ScanConfig` (models.py lines 11-26):
`rate_limit` floored at 0.5, `max_pages` clamped to [1,1000], `max_depth`
clamped to [1,20]. -/
def ScanConfig.make (url : String) (max_pages max_depth : Int)
    (rate_limit : Rat) : ScanConfig :=
  { url := url,
    max_pages := (max 1 (min max_pages 1000)).toNat,
    max_depth := (max 1 (min max_depth 20)).toNat,
    rate_limit := if rate_limit < 1/2 then 1/2 else rate_limit }

/-- `ElementResult` (models.py lines 29-42). -/
structure ElementResult where
  page_url : String
  page_title : Option String
  element_type : String
  action_type : Option String
  element_text : Option String
  css_selector : Option String
  section_context : Option String
  container_context : String
  is_above_fold : Bool
  target_url : Option String
  is_external : Bool
  pharma_context : Option String
  notes : Option String
deriving DecidableEq, Repr

/-- `PageResult` (models.py lines 45-51). -/
structure PageResult where
  url : String
  title : Option String := none
  status_code : Option Nat := none
  depth : Nat := 0
  elements : List ElementResult := []
  error : Option String := none
deriving DecidableEq, Repr

/-- `RobotsResult` (models.py lines 62-66). -/
structure RobotsResult where
  found : Bool
  allowed : Bool
  raw_content : Option String := none
  disallowed_paths : List String := []
deriving DecidableEq, Repr

/-! ## Consent Resolver (src/backend/crawler/consent.py)

The browser interactions of `handle_consent` are abstracted as a record of
outcomes the page would produce: whether a banner is visible
(`_has_visible_consent_banner`), which framework the selector table matches
(`detect_framework`), and whether each of the five dismissal strategies
would succeed on this page. -/

/-- `ConsentResult` (consent.py lines 18-23), with the dataclass defaults. -/
structure ConsentResult where
  detected : Bool := false
  action : String := "none"
  framework : String := "unknown"
  notes : Option String := none
deriving DecidableEq, Repr

/-- Outcomes of the browser probes performed by `handle_consent` on one
page: the result of the visibility check, of framework detection, and of
each dismissal strategy in consent.py. -/
structure ConsentBehavior where
  bannerVisible : Bool
  framework : String
  acceptSelectorClick : Bool
  acceptTextClick : Bool
  closeSelectorClick : Bool
  closeTextClick : Bool
  domBypass : Bool
deriving DecidableEq, Repr

/-- `handle_consent` (consent.py lines 229-289): return immediately when no
banner is visible; otherwise try the five strategies in priority order and
stop at the first success. -/
def handle_consent (b : ConsentBehavior) : ConsentResult :=
  if !b.bannerVisible then
    { detected := false, action := "none" }
  else if b.acceptSelectorClick then
    { detected := true, action := "accept_all", framework := b.framework }
  else if b.acceptTextClick then
    { detected := true, action := "accept_all", framework := b.framework }
  else if b.closeSelectorClick then
    { detected := true, action := "close", framework := b.framework }
  else if b.closeTextClick then
    { detected := true, action := "close", framework := b.framework }
  else if b.domBypass then
    { detected := true, action := "bypass_css", framework := b.framework,
      notes := some "Overlay removed via DOM manipulation" }
  else
    { detected := true, action := "failed", framework := b.framework,
      notes := some "All dismissal strategies exhausted" }

/-! ## Robots Compliance Checker (src/backend/crawler/robots.py) -/

/-- Outcome of the HTTP fetch of `<origin>/robots.txt`. -/
inductive RobotsFetch where
  | networkError
  | response (status : Nat) (text : String)
deriving DecidableEq, Repr

/-- Split a character list at newlines (Python `str.splitlines` on the
`\n`-separated contents the source produces). -/
def splitOnNl (cs : List Char) : List (List Char) :=
  cs.foldr (fun c acc =>
    match acc with
    | [] => if c == '\n' then [[], []] else [[c]]
    | line :: restLines =>
      if c == '\n' then [] :: line :: restLines
      else (c :: line) :: restLines) [[]]

/-- The `Disallow:` collection loop of `check_robots_txt` (robots.py lines
39-45): every stripped line whose lower-cased form starts with
`disallow:` contributes its (stripped, nonempty) value. -/
def parseDisallowed (content : String) : List String :=
  (splitOnNl content.toList).filterMap (fun lcs =>
    let line := (pyStrip (String.mk lcs)).toList
    if listStartsWith (line.map Char.toLower) "disallow:".toList then
      let p := pyStrip (String.mk ((line.dropWhile (fun c => c != ':')).drop 1))
      if p == "" then none else some p
    else none)

/-- `check_robots_txt` (robots.py lines 9-56).  The third-party
`RobotExclusionRulesParser` is abstracted as the oracle
`isAllowed content path` (the parser for the configured user agent, applied
to the fetched rule text).  A network error or any non-200 status yields
`found=false, allowed=true`; a 200 response is parsed and `allowed` is the
parser's verdict on `path`.  The Python signature defaults `path` to "/". -/
def check_robots_txt (fetch : RobotsFetch)
    (isAllowed : String → String → Bool) (path : String) : RobotsResult :=
  match fetch with
  | .networkError => { found := false, allowed := true }
  | .response status content =>
    if status == 404 then { found := false, allowed := true }
    else if status != 200 then { found := false, allowed := true }
    else
      { found := true,
        allowed := isAllowed content path,
        raw_content := some content,
        disallowed_paths := parseDisallowed content }

/-! ## URL handling (src/backend/crawler/engine.py helpers) -/

/-- Characters admissible in a URL scheme after the leading letter
(`urllib.parse` semantics). -/
def isSchemeChar (c : Char) : Bool :=
  c.isAlpha || c.isDigit || c == '+' || c == '-' || c == '.'

/-- The components of `urllib.parse.urlparse` the engine consumes. -/
structure ParsedUrl where
  scheme : String
  netloc : String
  path : String
deriving DecidableEq, Repr

/-- A model of `urllib.parse.urlparse` restricted to the fields the engine
reads (`scheme`, `netloc`, `path`): the scheme is the lower-cased prefix
before the first `:` when it is a valid scheme token; the netloc follows a
`//` and runs to the next `/`, `?` or `#`; the path runs to the next `?` or
`#`.  (Query/params/fragment splitting beyond this is not consumed by the
source.) -/
def pyUrlparse (u : String) : ParsedUrl :=
  let cs := u.toList
  let before := cs.takeWhile (fun c => c != ':')
  let after := cs.dropWhile (fun c => c != ':')
  let (scheme, rest) :=
    match after with
    | [] => ("", cs)
    | _ :: afterColon =>
      match before with
      | [] => ("", cs)
      | c0 :: tl =>
        if c0.isAlpha && tl.all isSchemeChar then
          (String.mk ((c0 :: tl).map Char.toLower), afterColon)
        else ("", cs)
  if listStartsWith rest "//".toList then
    let afterSlashes := rest.drop 2
    let netloc := afterSlashes.takeWhile
      (fun c => c != '/' && c != '?' && c != '#')
    let tail := afterSlashes.drop netloc.length
    { scheme := scheme,
      netloc := String.mk netloc,
      path := String.mk (tail.takeWhile (fun c => c != '?' && c != '#')) }
  else
    { scheme := scheme,
      netloc := "",
      path := String.mk (rest.takeWhile (fun c => c != '?' && c != '#')) }

/-- `urllib.parse.urldefrag` as used at engine.py line 37: everything from
the first `#` on is removed (when no `#` is present the URL is returned
unchanged). -/
def defragChars (cs : List Char) : List Char :=
  cs.takeWhile (fun c => c != '#')

/-- Engine.py lines 38-39: `if url.endswith("/"): url = url.rstrip("/")` —
when the URL ends in a slash, strip all trailing slashes. -/
def rstripSlashChars (cs : List Char) : List Char :=
  if cs.getLast? == some '/' then
    (cs.reverse.dropWhile (fun c => c == '/')).reverse
  else cs

/-- `CrawlEngine._normalize_url` (engine.py lines 35-40): drop the fragment,
then strip trailing slashes. -/
def _normalize_url (u : String) : String :=
  String.mk (rstripSlashChars (defragChars u.toList))

/-- `CrawlEngine._is_same_domain` (engine.py lines 42-45). -/
def _is_same_domain (base_domain : String) (url : String) : Bool :=
  (pyUrlparse url).netloc == base_domain

/-- `skip_extensions` (engine.py lines 60-66). -/
def skip_extensions : List String :=
  [ ".pdf", ".jpg", ".jpeg", ".png", ".gif", ".svg", ".webp",
    ".mp4", ".mp3", ".wav", ".avi", ".mov",
    ".zip", ".tar", ".gz", ".rar",
    ".doc", ".docx", ".xls", ".xlsx", ".ppt", ".pptx",
    ".css", ".js", ".json", ".xml", ".ico" ]

/-- `CrawlEngine._is_crawlable` (engine.py lines 47-72): http(s) scheme,
same domain, and no known non-HTML path extension. -/
def _is_crawlable (base_domain : String) (url : String) : Bool :=
  let parsed := pyUrlparse url
  if !(parsed.scheme == "http" || parsed.scheme == "https") then false
  else if !(_is_same_domain base_domain url) then false
  else
    let path_lower := (pyLower parsed.path).toList
    !(skip_extensions.any (fun ext => listEndsWith path_lower ext.toList))

/-! ## Element Extractor (src/backend/crawler/extractor.py)

`EXTRACTION_JS` runs inside the browser and returns raw element records;
the browser is abstracted by providing those records in the world.  The
Python-side loop of `extract_elements` (lines 383-437) is embedded. -/

/-- One raw element object as returned by `EXTRACTION_JS` to
`extract_elements`. -/
structure RawElement where
  element_type : String
  action_type : Option String
  element_text : Option String
  css_selector : Option String
  section_context : Option String
  container_context : String
  is_above_fold : Bool
  target_url : Option String
  is_external : Bool
deriving DecidableEq, Repr

/-- `extract_elements` (extractor.py lines 383-437): wrap every raw element
into an `ElementResult`, attaching `detect_tag_context` of its text and
target URL under the given tag configuration.  The Python signature defaults
`tag_name` to "Pharma" and `tag_keywords` to `None`. -/
def extract_elements (raws : List RawElement) (page_title : Option String)
    (page_url : String) (tag_name : String)
    (tag_keywords : Option (List String)) : List ElementResult :=
  raws.map (fun raw =>
    { page_url := page_url,
      page_title := page_title,
      element_type := raw.element_type,
      action_type := raw.action_type,
      element_text := raw.element_text,
      css_selector := raw.css_selector,
      section_context := raw.section_context,
      container_context := raw.container_context,
      is_above_fold := raw.is_above_fold,
      target_url := raw.target_url,
      is_external := raw.is_external,
      pharma_context :=
        detect_tag_context raw.element_text raw.target_url tag_name
          tag_keywords,
      notes := none })

/-! ## Page Visitor and Crawl Engine (src/backend/crawler/engine.py)

The browser automation substrate is abstracted as a `World`: for each URL,
what `page.goto` and the subsequent in-page probes would yield. -/

/-- What the browser yields for one successfully-responding navigation: the
response status, the post-redirect URL, the content type header, the page
title, the consent-probe outcomes, the raw extraction records, the `href`
targets on the page, and the analytics globals present. -/
structure LoadedPage where
  status : Nat
  final_url : String
  content_type : String
  title : String
  consent : ConsentBehavior
  raw_elements : List RawElement
  links : List String
  analytics : List String
deriving DecidableEq, Repr

/-- Navigation outcome for one URL: no response, an exception during the
visit, or a loaded page. -/
inductive NavOutcome where
  | noResponse
  | exn (msg : String)
  | loaded (p : LoadedPage)
deriving DecidableEq, Repr

/-- The browser world: what navigating to each URL produces. -/
def World := String → NavOutcome

/-- Result of one `_visit_page` call: the `PageResult`, the `(url, depth)`
entries put on the frontier, and the consent result when the resolver was
invoked. -/
structure VisitOut where
  result : PageResult
  newLinks : List (String × Nat)
  consent : Option ConsentResult
deriving DecidableEq, Repr

/-- `CrawlEngine._visit_page` (engine.py lines 186-279).  In source order:
no response → error; HTTP status ≥ 400 → error carrying the status; final
URL off-domain → error; non-HTML content type → error; otherwise invoke the
Consent Resolver when `handle_consent_banner` is set, extract elements
(note: `extract_elements(page, url)` at line 250 passes no tag arguments, so
the Python defaults `tag_name="Pharma"`, `tag_keywords=None` apply), and,
when `depth < max_depth`, enqueue the normalized same-domain crawlable links
not yet visited at `depth + 1`.  An exception during the visit becomes an
error-bearing `PageResult`. -/
def visitPage (world : World) (base_domain : String) (max_depth : Nat)
    (visited : List String) (handle_consent_banner : Bool) (url : String)
    (depth : Nat) : VisitOut :=
  match world url with
  | .noResponse =>
    { result := { url := url, depth := depth, error := some "No response" },
      newLinks := [], consent := none }
  | .exn msg =>
    { result := { url := url, depth := depth, error := some msg },
      newLinks := [], consent := none }
  | .loaded p =>
    if 400 ≤ p.status then
      { result :=
          { url := url, depth := depth, status_code := some p.status,
            error := some ("HTTP " ++ toString p.status) },
        newLinks := [], consent := none }
    else if !(_is_same_domain base_domain p.final_url) then
      { result :=
          { url := url, depth := depth, status_code := some p.status,
            error := some ("Redirected off-domain to " ++ p.final_url) },
        newLinks := [], consent := none }
    else if p.content_type != ""
        && !(strHasSub (pyLower p.content_type) "html") then
      { result :=
          { url := url, depth := depth, status_code := some p.status,
            error := some ("Non-HTML content: " ++ p.content_type) },
        newLinks := [], consent := none }
    else
      let consentRes :=
        if handle_consent_banner then some (handle_consent p.consent)
        else none
      let title_opt := if p.title == "" then none else some p.title
      let elements :=
        extract_elements p.raw_elements title_opt url "Pharma" none
      let newLinks :=
        if depth < max_depth then
          p.links.filterMap (fun link =>
            let norm := _normalize_url link
            if !(visited.contains norm) && _is_crawlable base_domain norm
            then some (norm, depth + 1) else none)
        else []
      { result :=
          { url := url, title := title_opt, status_code := some p.status,
            depth := depth, elements := elements, error := none },
        newLinks := newLinks, consent := consentRes }

/-- Mutable engine state of `_crawl_loop`: the FIFO frontier, the visited
set, the accumulated pages, the `consent_handled` flag, the stored
`consent_result`, and the progress status.  `consentEvents` is ghost
instrumentation recording the (normalized) URL of every page on which the
Consent Resolver was actually invoked. -/
structure CrawlState where
  queue : List (String × Nat)
  visited : List String
  pages : List PageResult
  consentHandled : Bool
  consentResult : Option ConsentResult
  consentEvents : List String
  status : String
deriving DecidableEq, Repr

/-- `CrawlEngine._crawl_loop` (engine.py lines 134-184), indexed by fuel
(the wall-clock budget of `asyncio.wait_for`: exhausting it with work left
aborts the loop with `status = "timeout"`, keeping partial results).  Each
iteration: stop at the page cap; dequeue; normalize; skip if visited or
deeper than `max_depth`; otherwise mark visited, visit the page with
`handle_consent_banner = not consent_handled`, append the result, enqueue
the discovered links, and set `consent_handled` after the first page. -/
def crawlLoop (world : World) (base_domain : String) (cfg : ScanConfig) :
    Nat → CrawlState → CrawlState
  | 0, st =>
    match st.queue with
    | [] => st
    | _ :: _ =>
      if cfg.max_pages ≤ st.pages.length then st
      else { st with status := "timeout" }
  | fuel + 1, st =>
    match st.queue with
    | [] => st
    | (url, depth) :: rest =>
      if cfg.max_pages ≤ st.pages.length then st
      else
        let normalized := _normalize_url url
        if st.visited.contains normalized then
          crawlLoop world base_domain cfg fuel { st with queue := rest }
        else if cfg.max_depth < depth then
          crawlLoop world base_domain cfg fuel { st with queue := rest }
        else
          let visited' := st.visited ++ [normalized]
          let v := visitPage world base_domain cfg.max_depth visited'
            (!st.consentHandled) normalized depth
          crawlLoop world base_domain cfg fuel
            { queue := rest ++ v.newLinks,
              visited := visited',
              pages := st.pages ++ [v.result],
              consentHandled := true,
              consentResult :=
                match v.consent with
                | some c => some c
                | none => st.consentResult,
              consentEvents :=
                match v.consent with
                | some _ => st.consentEvents ++ [normalized]
                | none => st.consentEvents,
              status := st.status }

/-- What `CrawlEngine.crawl` leaves for its caller: the robots verdict, the
page results, the final status, and the stored consent result (plus the
ghost consent-invocation record). -/
structure CrawlOutcome where
  robots : RobotsResult
  pages : List PageResult
  status : String
  consentResult : Option ConsentResult
  consentEvents : List String
deriving DecidableEq, Repr

/-- `CrawlEngine.crawl` (engine.py lines 84-132): check robots.txt first —
note line 90 calls `check_robots_txt(self.config.url)`, leaving the `path`
parameter at its default "/" — and stop with `blocked_by_robots` and zero
pages when disallowed; otherwise seed the frontier with the normalized start
URL at depth 0, run the loop, and finish with `completed` when the status is
still `running`. -/
def runCrawl (world : World) (fetch : RobotsFetch)
    (isAllowed : String → String → Bool) (cfg : ScanConfig) (fuel : Nat) :
    CrawlOutcome :=
  let base_domain := (pyUrlparse cfg.url).netloc
  let robots := check_robots_txt fetch isAllowed "/"
  if !robots.allowed then
    { robots := robots, pages := [], status := "blocked_by_robots",
      consentResult := none, consentEvents := [] }
  else
    let st0 : CrawlState :=
      { queue := [(_normalize_url cfg.url, 0)], visited := [], pages := [],
        consentHandled := false, consentResult := none, consentEvents := [],
        status := "running" }
    let stF := crawlLoop world base_domain cfg fuel st0
    { robots := robots,
      pages := stF.pages,
      status := if stF.status == "running" then "completed" else stF.status,
      consentResult := stF.consentResult,
      consentEvents := stF.consentEvents }

/-! ## Scan creation (src/backend/api/scans.py) -/

/-- `ScanRequest` (scans.py lines 25-31): the request body of `create_scan`,
including the tag configuration. -/
structure ScanRequest where
  url : String
  max_pages : Int
  max_depth : Int
  rate_limit : Rat
  tag_name : String
  tag_keywords : Option (List String)
deriving DecidableEq, Repr

/-- The `ScanConfig(...)` construction in `create_scan` (scans.py lines
216-223).  The call passes `tag_name` and `tag_keywords` keyword arguments,
but `ScanConfig` (models.py) declares no such fields, and pydantic's default
`extra="ignore"` policy silently drops unknown init arguments — so only the
four declared fields survive. -/
def configFromRequest (body : ScanRequest) : ScanConfig :=
  ScanConfig.make body.url body.max_pages body.max_depth body.rate_limit

/-! ## Helper lemmas -/

theorem mem_of_mem_dropWhile {p : Char → Bool} :
    ∀ {l : List Char} {a : Char}, a ∈ l.dropWhile p → a ∈ l := by
  intro l
  induction l with
  | nil => intro a h; simp at h
  | cons x xs ih =>
    intro a h
    rw [List.dropWhile_cons] at h
    by_cases hp : p x
    · simp only [hp, if_true] at h
      exact List.mem_cons_of_mem _ (ih h)
    · simp [hp] at h
      rcases h with h | h
      · subst h; exact List.mem_cons_self _ _
      · exact List.mem_cons_of_mem _ h

theorem head?_dropWhile_false {p : Char → Bool} :
    ∀ {l : List Char} {a : Char}, (l.dropWhile p).head? = some a → p a = false := by
  intro l
  induction l with
  | nil => intro a h; simp at h
  | cons x xs ih =>
    intro a h
    rw [List.dropWhile_cons] at h
    by_cases hp : p x
    · simp only [hp, if_true] at h
      exact ih h
    · simp [hp] at h
      rw [← h]
      rw [Bool.not_eq_true] at hp
      exact hp

theorem defrag_no_hash {cs : List Char} : ∀ c ∈ defragChars cs, (c != '#') = true := by
  intro c hc
  unfold defragChars at hc
  exact @List.mem_takeWhile_imp Char (fun c => c != '#') cs c hc

theorem defrag_of_no_hash {cs : List Char} (h : ∀ c ∈ cs, (c != '#') = true) :
    defragChars cs = cs :=
  List.takeWhile_eq_self_iff.mpr h

theorem mem_of_mem_rstrip {cs : List Char} {c : Char}
    (h : c ∈ rstripSlashChars cs) : c ∈ cs := by
  unfold rstripSlashChars at h
  by_cases hl : (cs.getLast? == some '/') = true
  · rw [if_pos hl] at h
    exact List.mem_reverse.mp (mem_of_mem_dropWhile (List.mem_reverse.mp h))
  · rw [if_neg hl] at h
    exact h

theorem rstrip_no_trailing (cs : List Char) :
    ((rstripSlashChars cs).getLast? == some '/') = false := by
  unfold rstripSlashChars
  by_cases hl : (cs.getLast? == some '/') = true
  · rw [if_pos hl, List.getLast?_reverse]
    cases hh : (cs.reverse.dropWhile (fun c => c == '/')).head? with
    | none => simp
    | some a =>
      have := head?_dropWhile_false hh
      simp [this]
  · rw [if_neg hl]
    rw [Bool.not_eq_true] at hl
    exact hl

theorem rstrip_of_no_trailing {cs : List Char}
    (h : (cs.getLast? == some '/') = false) : rstripSlashChars cs = cs := by
  unfold rstripSlashChars
  rw [h]
  simp

theorem visitPage_result_url (w : World) (b : String) (md : Nat)
    (vis : List String) (flag : Bool) (url : String) (d : Nat) :
    (visitPage w b md vis flag url d).result.url = url := by
  unfold visitPage
  cases hw : w url with
  | noResponse => rfl
  | exn m => rfl
  | loaded p =>
    dsimp only
    split
    · rfl
    · split
      · rfl
      · split
        · rfl
        · rfl

theorem visitPage_result_depth (w : World) (b : String) (md : Nat)
    (vis : List String) (flag : Bool) (url : String) (d : Nat) :
    (visitPage w b md vis flag url d).result.depth = d := by
  unfold visitPage
  cases hw : w url with
  | noResponse => rfl
  | exn m => rfl
  | loaded p =>
    dsimp only
    split
    · rfl
    · split
      · rfl
      · split
        · rfl
        · rfl

theorem visitPage_consent_of_not_flag (w : World) (b : String) (md : Nat)
    (vis : List String) (url : String) (d : Nat) :
    (visitPage w b md vis false url d).consent = none := by
  unfold visitPage
  cases hw : w url with
  | noResponse => rfl
  | exn m => rfl
  | loaded p =>
    dsimp only
    split
    · rfl
    · split
      · rfl
      · split
        · rfl
        · rfl

theorem visitPage_consent_iff_ok (w : World) (b : String) (md : Nat)
    (vis : List String) (url : String) (d : Nat) :
    (visitPage w b md vis true url d).consent.isSome
      = (visitPage w b md vis true url d).result.error.isNone := by
  unfold visitPage
  cases hw : w url with
  | noResponse => rfl
  | exn m => rfl
  | loaded p =>
    dsimp only
    split
    · rfl
    · split
      · rfl
      · split
        · rfl
        · rfl

theorem crawlLoop_pages_pre (w : World) (b : String) (cfg : ScanConfig) :
    ∀ (fuel : Nat) (st : CrawlState),
      st.pages <+: (crawlLoop w b cfg fuel st).pages := by
  intro fuel
  induction fuel with
  | zero =>
    intro st
    cases hq : st.queue with
    | nil => simp [crawlLoop, hq]
    | cons e rest =>
      by_cases hcap : cfg.max_pages ≤ st.pages.length <;>
        simp [crawlLoop, hq, hcap]
  | succ n ih =>
    intro st
    cases hq : st.queue with
    | nil => simp [crawlLoop, hq]
    | cons e rest =>
      obtain ⟨url, depth⟩ := e
      by_cases hcap : cfg.max_pages ≤ st.pages.length
      · simp [crawlLoop, hq, hcap]
      · by_cases hvis : _normalize_url url ∈ st.visited
        · simpa [crawlLoop, hq, hcap, hvis] using ih { st with queue := rest }
        · by_cases hd : cfg.max_depth < depth
          · simpa [crawlLoop, hq, hcap, hvis, hd] using ih { st with queue := rest }
          · simp [crawlLoop, hq, hcap, hvis, hd]
            refine List.IsPrefix.trans ?_ (ih _)
            exact List.prefix_append _ _

theorem crawlLoop_events_const (w : World) (b : String) (cfg : ScanConfig) :
    ∀ (fuel : Nat) (st : CrawlState), st.consentHandled = true →
      (crawlLoop w b cfg fuel st).consentEvents = st.consentEvents := by
  intro fuel
  induction fuel with
  | zero =>
    intro st _
    cases hq : st.queue with
    | nil => simp [crawlLoop, hq]
    | cons e rest =>
      by_cases hcap : cfg.max_pages ≤ st.pages.length <;>
        simp [crawlLoop, hq, hcap]
  | succ n ih =>
    intro st hch
    cases hq : st.queue with
    | nil => simp [crawlLoop, hq]
    | cons e rest =>
      obtain ⟨url, depth⟩ := e
      by_cases hcap : cfg.max_pages ≤ st.pages.length
      · simp [crawlLoop, hq, hcap]
      · by_cases hvis : _normalize_url url ∈ st.visited
        · simpa [crawlLoop, hq, hcap, hvis] using ih { st with queue := rest } hch
        · by_cases hd : cfg.max_depth < depth
          · simpa [crawlLoop, hq, hcap, hvis, hd] using ih { st with queue := rest } hch
          · simp [crawlLoop, hq, hcap, hvis, hd, hch, visitPage_consent_of_not_flag]
            exact ih _ rfl

theorem crawlLoop_depth_inv (w : World) (b : String) (cfg : ScanConfig) :
    ∀ (fuel : Nat) (st : CrawlState),
      (∀ r ∈ st.pages, r.depth ≤ cfg.max_depth) →
      ∀ r ∈ (crawlLoop w b cfg fuel st).pages, r.depth ≤ cfg.max_depth := by
  intro fuel
  induction fuel with
  | zero =>
    intro st h
    cases hq : st.queue with
    | nil => simpa [crawlLoop, hq] using h
    | cons e rest =>
      by_cases hcap : cfg.max_pages ≤ st.pages.length <;>
        simpa [crawlLoop, hq, hcap] using h
  | succ n ih =>
    intro st h
    cases hq : st.queue with
    | nil => simpa [crawlLoop, hq] using h
    | cons e rest =>
      obtain ⟨url, depth⟩ := e
      by_cases hcap : cfg.max_pages ≤ st.pages.length
      · simpa [crawlLoop, hq, hcap] using h
      · by_cases hvis : _normalize_url url ∈ st.visited
        · simpa [crawlLoop, hq, hcap, hvis] using ih { st with queue := rest } h
        · by_cases hd : cfg.max_depth < depth
          · simpa [crawlLoop, hq, hcap, hvis, hd] using ih { st with queue := rest } h
          · simp only [crawlLoop, hq, hcap, hvis, hd]
            simp [hvis, hd]
            refine ih _ ?_
            intro r hr
            rcases List.mem_append.mp hr with hr | hr
            · exact h r hr
            · rcases List.mem_singleton.mp hr with rfl
              rw [visitPage_result_depth]
              exact Nat.le_of_not_lt hd

theorem match_pages_of_pre (w : World) (b : String) (cfg : ScanConfig)
    (n : Nat) (st : CrawlState) (r : PageResult) (h : st.pages = [r]) :
    (match (crawlLoop w b cfg n st).pages with
      | [] => ([] : List String)
      | r' :: _ => if r'.error = none then [r'.url] else [])
    = (if r.error = none then [r.url] else []) := by
  obtain ⟨tl, htl⟩ := crawlLoop_pages_pre w b cfg n st
  rw [← htl, h]
  rfl

/-! ## Concrete fixtures used by witnesses and counterexamples -/

/-- A page with no consent banner visible. -/
def noBanner : ConsentBehavior :=
  { bannerVisible := false, framework := "unknown",
    acceptSelectorClick := false, acceptTextClick := false,
    closeSelectorClick := false, closeTextClick := false, domBypass := false }

/-- A robots oracle that allows everything. -/
def allowAll : String → String → Bool := fun _ _ => true

/-- A plain successfully-loading HTML page on example.com with no elements
and no links. -/
def basicPage : LoadedPage :=
  { status := 200, final_url := "https://example.com",
    content_type := "text/html", title := "Home", consent := noBanner,
    raw_elements := [], links := [], analytics := [] }

/-- A world where every navigation loads `basicPage`. -/
def wBasic : World := fun _ => NavOutcome.loaded basicPage

/-- A world where no navigation gets a response. -/
def wNoResp : World := fun _ => NavOutcome.noResponse

/-- Default configuration for `https://example.com`. -/
def cfgBasic : ScanConfig := ScanConfig.make "https://example.com" 200 5 1

/-! ## Claim theorems -/

/-- C10: URL normalization is idempotent — `_normalize_url` applied to an
already-normalized URL returns it unchanged — and the normalized form
contains no fragment marker `#` and does not end in `/` (all trailing
slashes are stripped). -/
theorem c10_normalize_idempotent (u : String) :
    _normalize_url (_normalize_url u) = _normalize_url u
      ∧ ((_normalize_url u).toList.all (fun c => c != '#')) = true
      ∧ ((_normalize_url u).toList.getLast? == some '/') = false := by
  have h1 : (_normalize_url u).toList = rstripSlashChars (defragChars u.toList) := rfl
  have hnohash : ∀ c ∈ (_normalize_url u).toList, (c != '#') = true := by
    intro c hc
    rw [h1] at hc
    exact defrag_no_hash c (mem_of_mem_rstrip hc)
  have htr : ((_normalize_url u).toList.getLast? == some '/') = false := by
    rw [h1]
    exact rstrip_no_trailing _
  refine ⟨?_, List.all_eq_true.mpr hnohash, htr⟩
  show String.mk (rstripSlashChars (defragChars (_normalize_url u).toList))
    = _normalize_url u
  rw [defrag_of_no_hash hnohash, rstrip_of_no_trailing htr]
  rfl

/-- C2: built-in ("Pharma") classification of the text
"View Important Safety Information".  The first matching phrase of the first
matching category does win, but the code returns the bare category `"isi"`,
not the `"<category>:<matched phrase>"` format the claim (and the
repository's own test suite, tests/test_tag_detection.py) requires. -/
theorem c2_builtin_returns_bare_category :
    detect_tag_context (some "View Important Safety Information") none
        "Pharma" none = some "isi"
      ∧ detect_tag_context (some "View Important Safety Information") none
        "Pharma" none ≠ some "isi:important safety information" := by
  constructor
  · decide
  · decide

/-- C3: custom-mode classification of
"Read our cookie policy and privacy notice" with keywords
["cookie policy", "privacy notice"].  The first keyword does win even though
both match, but the code returns the bare keyword `"cookie policy"`, not the
`"custom:<matched keyword>"` format the claim (and
tests/test_tag_detection.py) requires. -/
theorem c3_custom_returns_bare_keyword :
    detect_tag_context (some "Read our cookie policy and privacy notice")
        none "Compliance" (some ["cookie policy", "privacy notice"])
        = some "cookie policy"
      ∧ detect_tag_context (some "Read our cookie policy and privacy notice")
        none "Compliance" (some ["cookie policy", "privacy notice"])
        ≠ some "custom:cookie policy" := by
  constructor
  · decide
  · decide

/-- C7: `handle_consent` returns `detected=false, action=none` when no
banner is visible; otherwise the five dismissal strategies are attempted in
strict priority order and the first success determines the action
(`accept_all` for an accept selector or accept-phrase click, `close` for a
close selector or close-phrase click, `bypass_css` for the DOM bypass); when
all five fail it returns `detected=true, action=failed`. -/
theorem c7_consent_cascade (b : ConsentBehavior) :
    (b.bannerVisible = false →
      handle_consent b =
        { detected := false, action := "none", framework := "unknown",
          notes := none })
  ∧ (b.bannerVisible = true → b.acceptSelectorClick = true →
      (handle_consent b).detected = true
        ∧ (handle_consent b).action = "accept_all")
  ∧ (b.bannerVisible = true → b.acceptSelectorClick = false →
      b.acceptTextClick = true →
      (handle_consent b).detected = true
        ∧ (handle_consent b).action = "accept_all")
  ∧ (b.bannerVisible = true → b.acceptSelectorClick = false →
      b.acceptTextClick = false → b.closeSelectorClick = true →
      (handle_consent b).detected = true
        ∧ (handle_consent b).action = "close")
  ∧ (b.bannerVisible = true → b.acceptSelectorClick = false →
      b.acceptTextClick = false → b.closeSelectorClick = false →
      b.closeTextClick = true →
      (handle_consent b).detected = true
        ∧ (handle_consent b).action = "close")
  ∧ (b.bannerVisible = true → b.acceptSelectorClick = false →
      b.acceptTextClick = false → b.closeSelectorClick = false →
      b.closeTextClick = false → b.domBypass = true →
      (handle_consent b).detected = true
        ∧ (handle_consent b).action = "bypass_css")
  ∧ (b.bannerVisible = true → b.acceptSelectorClick = false →
      b.acceptTextClick = false → b.closeSelectorClick = false →
      b.closeTextClick = false → b.domBypass = false →
      (handle_consent b).detected = true
        ∧ (handle_consent b).action = "failed") := by
  refine ⟨?_, ?_, ?_, ?_, ?_, ?_, ?_⟩ <;>
    · intros
      simp_all [handle_consent]

/-- C4 (amended): in every crawl the Consent Resolver is invoked at most
once, namely on the first visited page exactly when that page loads
successfully (its `PageResult` carries no error); it is never invoked on any
later page, and never at all when the first visited page fails to load. -/
theorem c4_consent_first_page_only (w : World) (fetch : RobotsFetch)
    (isAllowed : String → String → Bool) (cfg : ScanConfig) (fuel : Nat) :
    (runCrawl w fetch isAllowed cfg fuel).consentEvents =
      (match (runCrawl w fetch isAllowed cfg fuel).pages with
        | [] => []
        | r :: _ => if r.error = none then [r.url] else []) := by
  unfold runCrawl
  by_cases hall : (check_robots_txt fetch isAllowed "/").allowed = true
  · simp only [hall, Bool.not_true, Bool.false_eq_true, if_false]
    cases fuel with
    | zero =>
      by_cases hcap : cfg.max_pages ≤ 0 <;> simp [crawlLoop, hcap]
    | succ n =>
      by_cases hcap : cfg.max_pages ≤ 0
      · simp [crawlLoop, hcap]
      · simp only [crawlLoop]
        simp only [List.contains_nil, Bool.false_eq_true, if_false,
          List.length_nil, hcap, Nat.not_lt_zero, ite_false]
        simp only [List.nil_append, Bool.not_false]
        cases hc : (visitPage w (pyUrlparse cfg.url).netloc cfg.max_depth
            [_normalize_url (_normalize_url cfg.url)] true
            (_normalize_url (_normalize_url cfg.url)) 0).consent with
        | some c =>
          have hiff := visitPage_consent_iff_ok w (pyUrlparse cfg.url).netloc
            cfg.max_depth [_normalize_url (_normalize_url cfg.url)]
            (_normalize_url (_normalize_url cfg.url)) 0
          rw [hc] at hiff
          simp only [Option.isSome_some] at hiff
          have herr := Option.isNone_iff_eq_none.mp hiff.symm
          rw [crawlLoop_events_const w (pyUrlparse cfg.url).netloc cfg n _ rfl]
          rw [match_pages_of_pre w (pyUrlparse cfg.url).netloc cfg n _ _ rfl]
          rw [if_pos herr, visitPage_result_url]
        | none =>
          have hiff := visitPage_consent_iff_ok w (pyUrlparse cfg.url).netloc
            cfg.max_depth [_normalize_url (_normalize_url cfg.url)]
            (_normalize_url (_normalize_url cfg.url)) 0
          rw [hc] at hiff
          simp only [Option.isSome_none] at hiff
          have herr : ¬ (visitPage w (pyUrlparse cfg.url).netloc cfg.max_depth
              [_normalize_url (_normalize_url cfg.url)] true
              (_normalize_url (_normalize_url cfg.url)) 0).result.error = none := by
            intro h
            rw [h] at hiff
            simp at hiff
          rw [crawlLoop_events_const w (pyUrlparse cfg.url).netloc cfg n _ rfl]
          rw [match_pages_of_pre w (pyUrlparse cfg.url).netloc cfg n _ _ rfl]
          rw [if_neg herr]
  · simp [hall]

/-- Counterexample to C4 as stated: a crawl whose seed page gets no response
visits one page but never invokes the Consent Resolver — the resolver is not
invoked "exactly once" in every crawl. -/
theorem c4_counterexample :
    (runCrawl wNoResp RobotsFetch.networkError allowAll cfgBasic 10).pages.length = 1
      ∧ ¬ (runCrawl wNoResp RobotsFetch.networkError allowAll cfgBasic
          10).consentEvents.length = 1 := by
  constructor
  · decide
  · decide

/-- C9: no `PageResult` produced by a crawl seeded at depth 0 has a depth
exceeding `max_depth` — the frontier loop skips dequeued entries deeper
than `max_depth`, and pages only enqueue links (at `depth + 1`) when their
own depth is strictly below `max_depth`. -/
theorem c9_depth_le_max (w : World) (fetch : RobotsFetch)
    (isAllowed : String → String → Bool) (cfg : ScanConfig) (fuel : Nat) :
    ∀ r ∈ (runCrawl w fetch isAllowed cfg fuel).pages,
      r.depth ≤ cfg.max_depth := by
  intro r hr
  unfold runCrawl at hr
  by_cases hall : (check_robots_txt fetch isAllowed "/").allowed = true
  · simp only [hall, Bool.not_true, Bool.false_eq_true, if_false] at hr
    exact crawlLoop_depth_inv w _ cfg fuel _ (by simp) r hr
  · simp [hall] at hr

/-- Witness for C9: the single page of a concrete one-page crawl respects
the depth bound. -/
theorem c9_depth_le_max_witness :
    ({ url := "https://example.com", title := some "Home",
       status_code := some 200, depth := 0, elements := [],
       error := none } : PageResult).depth ≤ cfgBasic.max_depth :=
  c9_depth_le_max wBasic RobotsFetch.networkError allowAll cfgBasic 10
    { url := "https://example.com", title := some "Home",
      status_code := some 200, depth := 0, elements := [], error := none }
    (by decide)

/-- Witness for C7: a page with a visible banner where the accept selector
fails but an accept-phrase click succeeds yields `accept_all`. -/
theorem c7_consent_cascade_witness :
    (handle_consent
        { bannerVisible := true, framework := "onetrust",
          acceptSelectorClick := false, acceptTextClick := true,
          closeSelectorClick := false, closeTextClick := false,
          domBypass := false }).detected = true
      ∧ (handle_consent
        { bannerVisible := true, framework := "onetrust",
          acceptSelectorClick := false, acceptTextClick := true,
          closeSelectorClick := false, closeTextClick := false,
          domBypass := false }).action = "accept_all" :=
  (c7_consent_cascade _).2.2.1 rfl rfl rfl

/-- Replace the analytics component of a navigation outcome by the empty
list, leaving everything else unchanged. -/
def scrubAnalytics : NavOutcome → NavOutcome
  | .loaded p => .loaded { p with analytics := [] }
  | o => o

theorem visitPage_scrub (w : World) (b : String) (md : Nat)
    (vis : List String) (flag : Bool) (url : String) (d : Nat) :
    visitPage (fun u => scrubAnalytics (w u)) b md vis flag url d
      = visitPage w b md vis flag url d := by
  unfold visitPage
  cases hw : w url with
  | noResponse => simp [scrubAnalytics, hw]
  | exn m => simp [scrubAnalytics, hw]
  | loaded p => simp [scrubAnalytics, hw]

theorem crawlLoop_scrub (w : World) (b : String) (cfg : ScanConfig) :
    ∀ (fuel : Nat) (st : CrawlState),
      crawlLoop (fun u => scrubAnalytics (w u)) b cfg fuel st
        = crawlLoop w b cfg fuel st := by
  intro fuel
  induction fuel with
  | zero => intro st; rfl
  | succ n ih =>
    intro st
    cases hq : st.queue with
    | nil => simp [crawlLoop, hq]
    | cons e rest =>
      obtain ⟨url, depth⟩ := e
      by_cases hcap : cfg.max_pages ≤ st.pages.length
      · simp [crawlLoop, hq, hcap]
      · by_cases hvis : _normalize_url url ∈ st.visited
        · simp [crawlLoop, hq, hcap, hvis, ih]
        · by_cases hd : cfg.max_depth < depth
          · simp [crawlLoop, hq, hcap, hvis, hd, ih]
          · simp [crawlLoop, hq, hcap, hvis, hd, visitPage_scrub, ih]

/-- C5: the crawl never consults the analytics information of any page — a
crawl over a world whose analytics data has been erased returns the
identical outcome.  `_visit_page` never invokes the Analytics Detector,
`PageResult` carries no analytics field, and `crawl` returns no analytics
union, so the claimed per-page detection and `analyticsUnion` aggregation do
not exist in the engine. -/
theorem c5_crawl_ignores_analytics (w : World) (fetch : RobotsFetch)
    (isAllowed : String → String → Bool) (cfg : ScanConfig) (fuel : Nat) :
    runCrawl (fun u => scrubAnalytics (w u)) fetch isAllowed cfg fuel
      = runCrawl w fetch isAllowed cfg fuel := by
  unfold runCrawl
  by_cases hall : (check_robots_txt fetch isAllowed "/").allowed = true
  · simp [hall, crawlLoop_scrub]
  · simp [hall]

theorem visitPage_http_error (w : World) (b : String) (md : Nat)
    (vis : List String) (flag : Bool) (url : String) (d : Nat)
    (p : LoadedPage) (hw : w url = NavOutcome.loaded p)
    (hs : 400 ≤ p.status) :
    visitPage w b md vis flag url d =
      { result :=
          { url := url, depth := d, status_code := some p.status,
            error := some ("HTTP " ++ toString p.status) },
        newLinks := [], consent := none } := by
  unfold visitPage
  rw [hw]
  dsimp only
  rw [if_pos hs]

/-- C8: a page visit whose HTTP response status is at least 400 yields a
`PageResult` with `error` set and zero elements and contributes no frontier
entries; the crawl loop then simply continues with the remaining frontier
(the next iteration runs on the rest of the queue) instead of aborting. -/
theorem c8_http_error_page (w : World) (b : String) (cfg : ScanConfig)
    (url : String) (depth : Nat) (p : LoadedPage)
    (hw : w url = NavOutcome.loaded p) (hs : 400 ≤ p.status) :
    (∀ (vis : List String) (flag : Bool),
      (visitPage w b cfg.max_depth vis flag url depth).result.error
          = some ("HTTP " ++ toString p.status)
        ∧ (visitPage w b cfg.max_depth vis flag url depth).result.elements = []
        ∧ (visitPage w b cfg.max_depth vis flag url depth).newLinks = [])
  ∧ (∀ (fuel : Nat) (st : CrawlState) (entryUrl : String)
        (rest : List (String × Nat)),
      st.queue = (entryUrl, depth) :: rest →
      _normalize_url entryUrl = url →
      st.pages.length < cfg.max_pages →
      st.visited.contains url = false →
      depth ≤ cfg.max_depth →
      crawlLoop w b cfg (fuel + 1) st
        = crawlLoop w b cfg fuel
          { st with
            queue := rest,
            visited := st.visited ++ [url],
            pages := st.pages ++
              [{ url := url, depth := depth, status_code := some p.status,
                 error := some ("HTTP " ++ toString p.status) }],
            consentHandled := true }) := by
  constructor
  · intro vis flag
    rw [visitPage_http_error w b cfg.max_depth vis flag url depth p hw hs]
    exact ⟨rfl, rfl, rfl⟩
  · intro fuel st entryUrl rest hq hnorm hcap hvis hdep
    simp only [crawlLoop, hq, hnorm]
    rw [if_neg (Nat.not_le.mpr hcap)]
    rw [hvis]
    simp only [Bool.false_eq_true, if_false]
    rw [if_neg (Nat.not_lt.mpr hdep)]
    rw [visitPage_http_error w b cfg.max_depth (st.visited ++ [url])
      (!st.consentHandled) url depth p hw hs]
    simp

/-- A page whose response carries HTTP status 404. -/
def page404 : LoadedPage := { basicPage with status := 404 }

/-- A world where every navigation yields the 404 page. -/
def w404 : World := fun _ => NavOutcome.loaded page404

/-- A mid-crawl state with two entries on the frontier. -/
def st404 : CrawlState :=
  { queue := [("https://example.com/a", 1), ("https://example.com/b", 1)],
    visited := [], pages := [], consentHandled := false,
    consentResult := none, consentEvents := [], status := "running" }

/-- Witness for C8: visiting a concrete 404 page produces an error result
with no elements and no frontier entries, and the loop continues on the
remaining queue. -/
theorem c8_http_error_page_witness :
    ((visitPage w404 "example.com" cfgBasic.max_depth [] true
        "https://example.com/a" 1).result.error = some "HTTP 404"
      ∧ (visitPage w404 "example.com" cfgBasic.max_depth [] true
        "https://example.com/a" 1).result.elements = []
      ∧ (visitPage w404 "example.com" cfgBasic.max_depth [] true
        "https://example.com/a" 1).newLinks = [])
  ∧ crawlLoop w404 "example.com" cfgBasic 4 st404
      = crawlLoop w404 "example.com" cfgBasic 3
        { queue := [("https://example.com/b", 1)],
          visited := ["https://example.com/a"],
          pages := [{ url := "https://example.com/a", depth := 1,
                      status_code := some 404, error := some "HTTP 404" }],
          consentHandled := true, consentResult := none,
          consentEvents := [], status := "running" } := by
  have h := c8_http_error_page w404 "example.com" cfgBasic
    "https://example.com/a" 1 page404 rfl (by decide)
  exact ⟨h.1 [] true,
    h.2 3 st404 "https://example.com/a" [("https://example.com/b", 1)] rfl
      (by decide) (by decide) (by decide) (by decide)⟩

/-- The scan request of a caller supplying a custom tag configuration. -/
def bodyTagged : ScanRequest :=
  { url := "https://example.com", max_pages := 200, max_depth := 5,
    rate_limit := 1, tag_name := "Compliance",
    tag_keywords := some ["cookie policy", "privacy notice"] }

/-- The same scan request with the default tag configuration. -/
def bodyPlain : ScanRequest :=
  { url := "https://example.com", max_pages := 200, max_depth := 5,
    rate_limit := 1, tag_name := "Pharma", tag_keywords := none }

/-- A raw extracted link whose text matches the caller's first custom
keyword. -/
def rawCookie : RawElement :=
  { element_type := "link", action_type := some "navigate",
    element_text := some "Read our cookie policy here",
    css_selector := some "a.cookie-link", section_context := none,
    container_context := "footer", is_above_fold := true,
    target_url := some "https://example.com/cookies", is_external := false }

/-- The basic page carrying the cookie-policy link. -/
def cookiePage : LoadedPage := { basicPage with raw_elements := [rawCookie] }

/-- A world where every navigation loads `cookiePage`. -/
def wCookie : World := fun _ => NavOutcome.loaded cookiePage

/-- C1: the tag configuration never reaches the crawl.  The `ScanConfig`
built by `create_scan` is identical whether or not the caller supplies
`tag_name`/`tag_keywords` (the model declares no such fields and pydantic
drops them), and the crawl classifies every element with the defaults
(`tag_name="Pharma"`, no keywords): an element whose text matches the
caller's keyword comes back with `pharma_context = none`, although
custom-mode classification with the caller's arguments would match it. -/
theorem c1_tag_config_dropped :
    configFromRequest bodyTagged = configFromRequest bodyPlain
  ∧ ((runCrawl wCookie RobotsFetch.networkError allowAll
        (configFromRequest bodyTagged) 10).pages.map
      (fun r => r.elements.map (fun e => e.pharma_context))) = [[none]]
  ∧ detect_tag_context rawCookie.element_text rawCookie.target_url
      bodyTagged.tag_name bodyTagged.tag_keywords = some "cookie policy" := by
  refine ⟨rfl, ?_, ?_⟩
  · decide
  · decide

/-- The basic page, reached at a seed URL under `/private`. -/
def privatePage : LoadedPage :=
  { basicPage with final_url := "https://example.com/private/page" }

/-- A world where every navigation loads `privatePage`. -/
def wPrivate : World := fun _ => NavOutcome.loaded privatePage

/-- A configuration whose seed URL has path `/private/page`. -/
def cfgPrivate : ScanConfig :=
  ScanConfig.make "https://example.com/private/page" 200 5 1

/-- Robots rules that disallow every path under `/private` (the standard
reading of `Disallow: /private` for any user agent). -/
def privAllowed : String → String → Bool :=
  fun _content path => !(listStartsWith path.toList "/private".toList)

/-- A robots.txt body disallowing `/private`. -/
def privContent : String := "User-agent: *\nDisallow: /private"

/-- Counterexample to C6 as stated: the seed URL's own path
`/private/page` is disallowed by the rules, yet the crawl reports
`allowed = true`, completes, and visits one page — because engine.py line 90
calls `check_robots_txt(self.config.url)` with the `path` parameter left at
its default "/", never consulting the seed path. -/
theorem c6_counterexample :
    (pyUrlparse cfgPrivate.url).path = "/private/page"
  ∧ privAllowed privContent "/private/page" = false
  ∧ (runCrawl wPrivate (RobotsFetch.response 200 privContent) privAllowed
      cfgPrivate 10).robots.allowed = true
  ∧ (runCrawl wPrivate (RobotsFetch.response 200 privContent) privAllowed
      cfgPrivate 10).status = "completed"
  ∧ (runCrawl wPrivate (RobotsFetch.response 200 privContent) privAllowed
      cfgPrivate 10).pages.length = 1 := by
  refine ⟨?_, ?_, ?_, ?_, ?_⟩ <;> decide

/-- C6 (amended): on a 200 robots.txt response, `allowed` is the parsed
rules' verdict on the root path "/" (the seed URL's own path is never
consulted), and when the root path is disallowed the crawl terminates as
`blocked_by_robots` with zero pages. -/
theorem c6_root_path_checked (w : World) (content : String)
    (isAllowed : String → String → Bool) (cfg : ScanConfig) (fuel : Nat) :
    (runCrawl w (RobotsFetch.response 200 content) isAllowed cfg
        fuel).robots.allowed = isAllowed content "/"
  ∧ (isAllowed content "/" = false →
      (runCrawl w (RobotsFetch.response 200 content) isAllowed cfg
          fuel).status = "blocked_by_robots"
      ∧ (runCrawl w (RobotsFetch.response 200 content) isAllowed cfg
          fuel).pages = []) := by
  constructor
  · unfold runCrawl
    by_cases h : isAllowed content "/" = true <;>
      simp [check_robots_txt, h]
  · intro h
    unfold runCrawl
    simp [check_robots_txt, h]

/-- Robots rules that disallow everything. -/
def denyAll : String → String → Bool := fun _ _ => false

/-- Witness for C6 (amended): with rules whose root-path verdict is
"disallowed", a concrete crawl stops as `blocked_by_robots` with zero
pages. -/
theorem c6_root_path_checked_witness :
    (runCrawl wBasic (RobotsFetch.response 200 "User-agent: *\nDisallow: /")
        denyAll cfgBasic 5).status = "blocked_by_robots"
  ∧ (runCrawl wBasic (RobotsFetch.response 200 "User-agent: *\nDisallow: /")
        denyAll cfgBasic 5).pages = [] :=
  (c6_root_path_checked wBasic "User-agent: *\nDisallow: /" denyAll cfgBasic
    5).2 rfl

end Tapmap
